import Mathlib

/-!
Shallow embedding of the SNP browser's embedded query engine: the worker
module holding the loaded database (`snpMatcher.worker.ts`), with its batch
matcher `matchSNPsInBatches`, the filtered search `searchSNPs`, the loader
`loadDatabase`, and the key normalization done by the 23andMe file parser.
-/

/-- One row of the `snps` table, after the current 45-column schema of the
worker's `SNPRecord` type. -/
structure SNPRecord where
  rsid : String
  content : String
  chromosome : Option String
  position : Option Int
  gene : Option String
  gene_s : Option String
  orientation : Option String
  assembly : Option String
  genome_build : Option String
  dbsnp_build : Option Int
  stabilized_orientation : Option String
  geno1 : Option String
  geno2 : Option String
  geno3 : Option String
  clin_chromosome : Option String
  clin_rsid : Option String
  clin_sig : Option String
  clin_disease : Option String
  clin_dbn : Option String
  clin_hgvs : Option String
  clin_origin : Option String
  clin_accession : Option String
  clin_reversed : Option Int
  clin_fwd_ref : Option String
  clin_fwd_alt : Option String
  clin_ref : Option String
  clin_alt : Option String
  clin_rspos : Option Int
  clin_dbsnp_build_id : Option Int
  clin_ssr : Option Int
  clin_sao : Option Int
  clin_vp : Option String
  clin_geneinfo : Option String
  clin_gene_name : Option String
  clin_gene_id : Option Int
  clin_wgt : Option Int
  clin_vc : Option String
  clin_clnalle : Option String
  clin_tags : Option String
  clin_clndsdb : Option String
  clin_clndsdbid : Option String
  clin_clnrevstat : Option String
  clin_clnsrc : Option String
  clin_clnsrcid : Option String
  pmid : Option Int
  pmid_title : Option String
deriving DecidableEq, Repr

/-- One parsed line of the user's 23andMe file (`UserGenotype`). -/
structure UserGenotype where
  rsid : String
  chromosome : String
  position : String
  genotype : String
deriving DecidableEq, Repr

/-- A matched SNP: the user's genotype row spread together with the database
row (`{...userGenotype, snpData: row}`). -/
structure MatchedSNP extends UserGenotype where
  snpData : SNPRecord
deriving DecidableEq, Repr

/-- Model of JavaScript `String.prototype.trim`: strip leading and trailing
whitespace. -/
def jsTrim (s : String) : String :=
  ⟨((s.data.dropWhile Char.isWhitespace).reverse.dropWhile Char.isWhitespace).reverse⟩

/-- Model of JavaScript `String.prototype.toLowerCase` (ASCII letters). -/
def jsToLower (s : String) : String :=
  ⟨s.data.map Char.toLower⟩

/-- Key normalization performed by the 23andMe file parser before the keys
ever reach the worker: `rsid.toLowerCase()` in `parse23andMeFile`. -/
def normalizeRsid (s : String) : String := jsToLower s

/-- Whether the first character list is a prefix of the second. -/
def charsPrefix : List Char → List Char → Bool
  | [], _ => true
  | _ :: _, [] => false
  | c :: cs, d :: ds => c == d && charsPrefix cs ds

/-- Whether the first character list occurs contiguously inside the second. -/
def charsInfix (pat : List Char) : List Char → Bool
  | [] => pat.isEmpty
  | d :: tl => charsPrefix pat (d :: tl) || charsInfix pat tl

/-- SQLite `field LIKE '%pat%'` on a non-NULL text field: case-insensitive
substring containment (SQLite's LIKE is case-insensitive for ASCII). -/
def likeS (field pat : String) : Bool :=
  charsInfix (jsToLower pat).data (jsToLower field).data

/-- SQLite `field LIKE '%pat%'` on a nullable field: NULL never matches. -/
def likeO (field : Option String) (pat : String) : Bool :=
  match field with
  | none => false
  | some s => likeS s pat

/-- The worker's view of the sql.js database: the `snps` table contents plus
a fault model for the engine.  `inFail` says whether the prepared `IN` query
for a given parameter list raises at the engine level; `countFail` and
`selectFail` say whether the search's count query or paginated select raises.
The honest engine has all fault flags false. -/
structure Database where
  table : List SNPRecord
  inFail : List String → Bool
  countFail : Bool
  selectFail : Bool

/-- A fault-free engine over a given `snps` table. -/
def honestDb (t : List SNPRecord) : Database :=
  { table := t, inFail := fun _ => false, countFail := false, selectFail := false }

/-- Executing `SELECT ${SNP_COLUMNS} FROM snps WHERE rsid IN (placeholders)`
with the given bound parameters: rows of the table whose `rsid` equals one of
the parameters, in natural row order, each row returned once.  SQLite string
equality is case-sensitive (default BINARY collation). -/
def Database.queryIn (db : Database) (rsids : List String) :
    Except String (List SNPRecord) :=
  if db.inFail rsids then .error "Error querying batch"
  else .ok (db.table.filter (fun r => rsids.contains r.rsid))

/-- Batch size used by `matchSNPsInBatches`
(`const batchSize = 500`, staying under SQLite's 999-parameter limit). -/
def batchSize : Nat := 500

/-- Fuel-driven slicing of a list into contiguous chunks of at most `B`
elements; with fuel at least the list's length and `B > 0` this is exactly
the worker loop's sequence of `genotypes.slice(i, min(i + batchSize, len))`. -/
def chunkFuel (B : Nat) : Nat → List α → List (List α)
  | _, [] => []
  | 0, _ :: _ => []
  | fuel + 1, x :: xs => (x :: xs).take B :: chunkFuel B fuel ((x :: xs).drop B)

/-- The contiguous batches of `l`, in input order. -/
def chunkList (B : Nat) (l : List α) : List (List α) :=
  chunkFuel B l.length l

/-- The body of one iteration of the matching loop: run the `IN` query for
the batch; a thrown error is caught and yields no matches; otherwise each
returned row is paired with the FIRST input genotype of the batch whose
`rsid` strictly equals (`===`) the row's `rsid`. -/
def processBatch (db : Database) (batch : List UserGenotype) : List MatchedSNP :=
  match db.queryIn (batch.map (fun g => g.rsid)) with
  | .error _ => []
  | .ok rows =>
      rows.filterMap (fun row =>
        (batch.find? (fun g => g.rsid == row.rsid)).map (fun g =>
          { toUserGenotype := g, snpData := row }))

/-- Runs the batches in order, accumulating matches and recording each
`onProgress(min(i + batchSize, total), total)` call; `processed` is the
number of input keys already covered by earlier batches, so the reported
value `processed + batch.length` equals `min(i + batchSize, total)`. -/
def runBatches (db : Database) (total : Nat) :
    Nat → List (List UserGenotype) → List MatchedSNP × List (Nat × Nat)
  | _, [] => ([], [])
  | processed, batch :: rest =>
      let ms := processBatch db batch
      let done := processed + batch.length
      let r := runBatches db total done rest
      (ms ++ r.1, (done, total) :: r.2)

/-- `matchSNPsInBatches(database, genotypes, onProgress)`: first component is
the returned matches list, second is the sequence of `onProgress` calls in
order. -/
def matchSNPsInBatches (db : Database) (genotypes : List UserGenotype) :
    List MatchedSNP × List (Nat × Nat) :=
  runBatches db genotypes.length 0 (chunkList batchSize genotypes)

/-- Number of `IN` queries the matching loop issues: one per batch. -/
def queriesIssued (genotypes : List UserGenotype) : Nat :=
  (chunkList batchSize genotypes).length

/-- The worker API's `matchSNPs`: fails when no database is loaded. -/
def matchSNPs (db : Option Database) (genotypes : List UserGenotype) :
    Except String (List MatchedSNP × List (Nat × Nat)) :=
  match db with
  | none => .error "Database not loaded. Call loadDatabase first."
  | some d => .ok (matchSNPsInBatches d genotypes)


/-- The optional filter criteria accepted by `searchSNPs`.  `none` models a
JavaScript `undefined` field; `some ""` models a provided empty string
(both are falsy). -/
structure Filters where
  searchTerm : Option String := none
  chromosome : Option String := none
  gene : Option String := none
  clinicalSignificance : Option String := none
  disease : Option String := none
  limit : Option Nat := none
  offset : Option Nat := none
deriving DecidableEq, Repr

/-- One condition pushed onto the `conditions` array of `searchSNPs`,
carrying its bound parameter (already trimmed where the source trims). -/
inductive Clause where
  | searchTerm (term : String)
  | chromosome (c : String)
  | gene (g : String)
  | clinSig (s : String)
  | disease (d : String)
deriving DecidableEq, Repr

/-- The five condition blocks of `searchSNPs`, one per optional criterion;
`buildConditions` concatenates them in source order.  The free-text term is
gated on `filters.searchTerm && filters.searchTerm.trim()`. -/
def condSearchTerm (o : Option String) : List Clause :=
  match o with
  | some s => if !s.isEmpty && !(jsTrim s).isEmpty then [Clause.searchTerm (jsTrim s)] else []
  | none => []

/-- `if (filters.chromosome)`: gated on truthiness only, no trim check. -/
def condChromosome (o : Option String) : List Clause :=
  match o with
  | some c => if !c.isEmpty then [Clause.chromosome c] else []
  | none => []

/-- `if (filters.gene && filters.gene.trim())`. -/
def condGene (o : Option String) : List Clause :=
  match o with
  | some g => if !g.isEmpty && !(jsTrim g).isEmpty then [Clause.gene (jsTrim g)] else []
  | none => []

/-- `if (filters.clinicalSignificance)`: truthiness only, no trim check, and
the bound pattern is the UNtrimmed value. -/
def condClinSig (o : Option String) : List Clause :=
  match o with
  | some s => if !s.isEmpty then [Clause.clinSig s] else []
  | none => []

/-- `if (filters.disease && filters.disease.trim())`. -/
def condDisease (o : Option String) : List Clause :=
  match o with
  | some d => if !d.isEmpty && !(jsTrim d).isEmpty then [Clause.disease (jsTrim d)] else []
  | none => []

def buildConditions (f : Filters) : List Clause :=
  condSearchTerm f.searchTerm ++ condChromosome f.chromosome ++ condGene f.gene ++
    condClinSig f.clinicalSignificance ++ condDisease f.disease

/-- Semantics of one condition on one row, following the SQL text built by
`searchSNPs` (each `LIKE ?` is bound to a `%...%` pattern; `chromosome = ?`
is exact equality and NULL never matches). -/
def clauseHolds (r : SNPRecord) : Clause → Bool
  | .searchTerm t =>
      likeS r.rsid t || likeO r.gene t || likeO r.gene_s t || likeS r.content t ||
        likeO r.clin_disease t || likeO r.clin_gene_name t
  | .chromosome c => r.chromosome == some c
  | .gene g => likeO r.gene g || likeO r.gene_s g || likeO r.clin_gene_name g
  | .clinSig s => likeO r.clin_sig s
  | .disease d => likeO r.clin_disease d

/-- The WHERE predicate: the conjunction (`join(" AND ")`) of the built
conditions; an empty conditions list means no WHERE clause at all. -/
def wherePred (cs : List Clause) (r : SNPRecord) : Bool :=
  cs.all (clauseHolds r)

/-- `filters.limit || 50`: a missing or zero (falsy) limit becomes 50. -/
def effLimit (l : Option Nat) : Nat :=
  match l with
  | none => 50
  | some n => if n = 0 then 50 else n

/-- `filters.offset || 0`: a missing offset becomes 0. -/
def effOffset (o : Option Nat) : Nat :=
  o.getD 0

/-- The value returned by `searchSNPs`. -/
structure SearchResult where
  results : List SNPRecord
  total : Nat
deriving DecidableEq, Repr

/-- `searchSNPs(filters)`: builds the conditions once, runs the count query
over the full filtered set, then the paginated select (`LIMIT ? OFFSET ?`)
over the same predicate in natural row order.  There is no try/catch here:
an engine failure in either query aborts the whole call. -/
def searchSNPs (db : Database) (f : Filters) : Except String SearchResult :=
  let filtered := db.table.filter (wherePred (buildConditions f))
  if db.countFail then .error "count query failed"
  else
    let total := filtered.length
    if db.selectFail then .error "select query failed"
    else .ok { results := (filtered.drop (effOffset f.offset)).take (effLimit f.limit),
               total := total }

/-- The worker API's `searchSNPs`: fails when no database is loaded. -/
def searchSNPsApi (db : Option Database) (f : Filters) :
    Except String SearchResult :=
  match db with
  | none => .error "Database not loaded. Call loadDatabase first."
  | some d => searchSNPs d f

/-- Outcome of the transport-level fetch of the database image. -/
inductive FetchResult where
  | failStatus (statusText : String)
  | noBody
  | readError (msg : String)
  | body (chunks : List (List Nat))

/-- `loadDatabase(dbPath, onProgress)`: the returned pair is the worker's
`db` variable after the call and the call's resolution.  A non-ok response,
an unreadable body, a failed chunk read, or a failed materialization
(`new SQL.Database(buffer)`) all land in the catch block, which resets
`db = null` and rethrows; on success the chunks are concatenated into one
buffer and materialized. -/
def loadDatabase (materialize : List Nat → Except String Database) :
    FetchResult → Option Database × Except String Unit
  | .failStatus st => (none, .error ("Failed to load database: " ++ st))
  | .noBody => (none, .error "Response body is not readable")
  | .readError msg => (none, .error msg)
  | .body chunks =>
      match materialize chunks.flatten with
      | .error e => (none, .error e)
      | .ok db => (some db, .ok ())

/-- A minimal `snps` row: all nullable columns NULL, empty content. -/
def mkRec (rsid : String) : SNPRecord :=
  { rsid := rsid, content := "", chromosome := none, position := none,
    gene := none, gene_s := none, orientation := none, assembly := none,
    genome_build := none, dbsnp_build := none, stabilized_orientation := none,
    geno1 := none, geno2 := none, geno3 := none, clin_chromosome := none,
    clin_rsid := none, clin_sig := none, clin_disease := none, clin_dbn := none,
    clin_hgvs := none, clin_origin := none, clin_accession := none,
    clin_reversed := none, clin_fwd_ref := none, clin_fwd_alt := none,
    clin_ref := none, clin_alt := none, clin_rspos := none,
    clin_dbsnp_build_id := none, clin_ssr := none, clin_sao := none,
    clin_vp := none, clin_geneinfo := none, clin_gene_name := none,
    clin_gene_id := none, clin_wgt := none, clin_vc := none,
    clin_clnalle := none, clin_tags := none, clin_clndsdb := none,
    clin_clndsdbid := none, clin_clnrevstat := none, clin_clnsrc := none,
    clin_clnsrcid := none, pmid := none, pmid_title := none }

/-- A user genotype line for a given key. -/
def mkG (rsid : String) : UserGenotype :=
  { rsid := rsid, chromosome := "1", position := "100", genotype := "AA" }

/-- The three-record dataset of the end-to-end scenario. -/
def table3 : List SNPRecord := [mkRec "rs1", mkRec "rs2", mkRec "rs3"]

/-- The duplicate-key input of the end-to-end scenario. -/
def keys3 : List UserGenotype := [mkG "rs1", mkG "rs4", mkG "rs1"]

theorem chunkFuel_nil {α : Type _} (B f : Nat) : chunkFuel B f ([] : List α) = [] := by
  cases f <;> rfl

theorem chunkFuel_congr {α : Type _} {B : Nat} (hB : 0 < B) :
    ∀ (f g : Nat) (l : List α), l.length ≤ f → l.length ≤ g →
      chunkFuel B f l = chunkFuel B g l := by
  intro f
  induction f with
  | zero =>
      intro g l hf _
      have hl : l = [] := List.eq_nil_of_length_eq_zero (Nat.le_zero.mp hf)
      subst hl
      rw [chunkFuel_nil, chunkFuel_nil]
  | succ f ih =>
      intro g l hf hg
      cases l with
      | nil => rw [chunkFuel_nil, chunkFuel_nil]
      | cons x xs =>
          cases g with
          | zero => simp at hg
          | succ g =>
              show (x :: xs).take B :: chunkFuel B f ((x :: xs).drop B) =
                (x :: xs).take B :: chunkFuel B g ((x :: xs).drop B)
              have hd : ((x :: xs).drop B).length = (x :: xs).length - B :=
                List.length_drop B (x :: xs)
              have hlen : (x :: xs).length = xs.length + 1 := rfl
              congr 1
              exact ih g ((x :: xs).drop B) (by omega) (by omega)

theorem chunkList_cons {α : Type _} {B : Nat} (hB : 0 < B) (l : List α) (hl : l ≠ []) :
    chunkList B l = l.take B :: chunkList B (l.drop B) := by
  obtain ⟨x, xs, rfl⟩ := List.exists_cons_of_ne_nil hl
  show (x :: xs).take B :: chunkFuel B xs.length ((x :: xs).drop B) =
    (x :: xs).take B :: chunkFuel B ((x :: xs).drop B).length ((x :: xs).drop B)
  have hd : ((x :: xs).drop B).length = (x :: xs).length - B := List.length_drop B (x :: xs)
  have hlen : (x :: xs).length = xs.length + 1 := rfl
  congr 1
  exact chunkFuel_congr hB _ _ _ (by omega) (le_refl _)

theorem chunkFuel_flatten {α : Type _} {B : Nat} (hB : 0 < B) :
    ∀ (f : Nat) (l : List α), l.length ≤ f → (chunkFuel B f l).flatten = l := by
  intro f
  induction f with
  | zero =>
      intro l hf
      have hl : l = [] := List.eq_nil_of_length_eq_zero (Nat.le_zero.mp hf)
      subst hl
      rfl
  | succ f ih =>
      intro l hf
      cases l with
      | nil => rfl
      | cons x xs =>
          show ((x :: xs).take B :: chunkFuel B f ((x :: xs).drop B)).flatten = x :: xs
          have hd : ((x :: xs).drop B).length = (x :: xs).length - B :=
            List.length_drop B (x :: xs)
          have hlen : (x :: xs).length = xs.length + 1 := rfl
          rw [List.flatten_cons, ih ((x :: xs).drop B) (by omega)]
          exact List.take_append_drop B (x :: xs)

theorem chunkList_flatten {α : Type _} {B : Nat} (hB : 0 < B) (l : List α) :
    (chunkList B l).flatten = l :=
  chunkFuel_flatten hB l.length l (le_refl _)

theorem chunkFuel_mem_ne_nil {α : Type _} {B : Nat} (hB : 0 < B) :
    ∀ (f : Nat) (l : List α) (b : List α), b ∈ chunkFuel B f l → b ≠ [] := by
  intro f
  induction f with
  | zero =>
      intro l b hb
      cases l with
      | nil => simp [chunkFuel] at hb
      | cons x xs => simp [chunkFuel] at hb
  | succ f ih =>
      intro l b hb
      cases l with
      | nil => simp [chunkFuel] at hb
      | cons x xs =>
          rcases List.mem_cons.mp hb with h | h
          · subst h
            apply List.ne_nil_of_length_pos
            rw [List.length_take]
            have : (x :: xs).length = xs.length + 1 := rfl
            omega
          · exact ih _ _ h

theorem chunkFuel_mem_length_le {α : Type _} {B : Nat} :
    ∀ (f : Nat) (l : List α) (b : List α), b ∈ chunkFuel B f l → b.length ≤ B := by
  intro f
  induction f with
  | zero =>
      intro l b hb
      cases l with
      | nil => simp [chunkFuel] at hb
      | cons x xs => simp [chunkFuel] at hb
  | succ f ih =>
      intro l b hb
      cases l with
      | nil => simp [chunkFuel] at hb
      | cons x xs =>
          rcases List.mem_cons.mp hb with h | h
          · subst h
            exact List.length_take_le B (x :: xs)
          · exact ih _ _ h

theorem chunkFuel_length {α : Type _} {B : Nat} (hB : 0 < B) :
    ∀ (f : Nat) (l : List α), l.length ≤ f →
      (chunkFuel B f l).length = (l.length + B - 1) / B := by
  intro f
  induction f with
  | zero =>
      intro l hf
      have hl : l = [] := List.eq_nil_of_length_eq_zero (Nat.le_zero.mp hf)
      subst hl
      have h0 : (B - 1) / B = 0 := Nat.div_eq_of_lt (by omega)
      simp [chunkFuel_nil, h0]
  | succ f ih =>
      intro l hf
      cases l with
      | nil =>
          have h0 : (B - 1) / B = 0 := Nat.div_eq_of_lt (by omega)
          simp [chunkFuel_nil, h0]
      | cons x xs =>
          show ((x :: xs).take B :: chunkFuel B f ((x :: xs).drop B)).length =
            ((x :: xs).length + B - 1) / B
          have hd : ((x :: xs).drop B).length = (x :: xs).length - B :=
            List.length_drop B (x :: xs)
          have hlen : (x :: xs).length = xs.length + 1 := rfl
          rw [List.length_cons, ih ((x :: xs).drop B) (by omega), hd, hlen]
          rcases le_or_lt (xs.length + 1) B with hcase | hcase
          · have h1 : xs.length + 1 - B = 0 := by omega
            have h2 : (0 + B - 1) / B = 0 := Nat.div_eq_of_lt (by omega)
            have h3 : (xs.length + 1 + B - 1) / B = 1 :=
              Nat.div_eq_of_lt_le (by omega) (by omega)
            rw [h1, h2, h3]
          · have h1 : xs.length + 1 - B + B - 1 = xs.length := by omega
            have h2 : xs.length + 1 + B - 1 = xs.length + B := by omega
            rw [h1, h2, Nat.add_div_right _ hB]

theorem chunkList_length {α : Type _} {B : Nat} (hB : 0 < B) (l : List α) :
    (chunkList B l).length = (l.length + B - 1) / B :=
  chunkFuel_length hB l.length l (le_refl _)

/-- Cumulative processed counts: the values `min(i + batchSize, total)`
reported by the loop, as running sums of the batch lengths. -/
def cumSums (p : Nat) : List Nat → List Nat
  | [] => []
  | n :: ns => (p + n) :: cumSums (p + n) ns

theorem runBatches_snd (db : Database) (total : Nat) :
    ∀ (bs : List (List UserGenotype)) (p : Nat),
      (runBatches db total p bs).2 =
        (cumSums p (bs.map List.length)).map (fun c => (c, total)) := by
  intro bs
  induction bs with
  | nil => intro p; rfl
  | cons b rest ih =>
      intro p
      simp only [runBatches, List.map_cons, cumSums, ih]

theorem runBatches_fst (db : Database) (total : Nat) :
    ∀ (bs : List (List UserGenotype)) (p : Nat),
      (runBatches db total p bs).1 = (bs.map (processBatch db)).flatten := by
  intro bs
  induction bs with
  | nil => intro p; rfl
  | cons b rest ih =>
      intro p
      simp only [runBatches, List.map_cons, List.flatten_cons, ih]

theorem cumSums_mem_ge : ∀ (ns : List Nat) (p x : Nat), x ∈ cumSums p ns → p ≤ x := by
  intro ns
  induction ns with
  | nil => intro p x hx; simp [cumSums] at hx
  | cons n rest ih =>
      intro p x hx
      rcases List.mem_cons.mp hx with h | h
      · omega
      · have := ih (p + n) x h
        omega

theorem cumSums_mem_gt (ns : List Nat) (hpos : ∀ n ∈ ns, 0 < n) :
    ∀ (p x : Nat), x ∈ cumSums p ns → p < x := by
  induction ns with
  | nil => intro p x hx; simp [cumSums] at hx
  | cons n rest ih =>
      intro p x hx
      have hn : 0 < n := hpos n (List.mem_cons_self n rest)
      rcases List.mem_cons.mp hx with h | h
      · omega
      · have := ih (fun m hm => hpos m (List.mem_cons_of_mem n hm)) (p + n) x h
        omega

theorem cumSums_chain_le : ∀ (ns : List Nat) (p : Nat),
    List.Chain' (· ≤ ·) (cumSums p ns) := by
  intro ns
  induction ns with
  | nil => intro p; simp [cumSums]
  | cons n rest ih =>
      intro p
      show List.Chain' (· ≤ ·) ((p + n) :: cumSums (p + n) rest)
      rw [List.chain'_cons']
      constructor
      · intro y hy
        exact cumSums_mem_ge rest (p + n) y (List.mem_of_mem_head? hy)
      · exact ih (p + n)

theorem cumSums_chain_lt (ns : List Nat) (hpos : ∀ n ∈ ns, 0 < n) :
    ∀ (p : Nat), List.Chain' (· < ·) (cumSums p ns) := by
  induction ns with
  | nil => intro p; simp [cumSums]
  | cons n rest ih =>
      intro p
      show List.Chain' (· < ·) ((p + n) :: cumSums (p + n) rest)
      rw [List.chain'_cons']
      refine ⟨fun y hy => ?_, ih (fun m hm => hpos m (List.mem_cons_of_mem n hm)) (p + n)⟩
      exact cumSums_mem_gt rest (fun m hm => hpos m (List.mem_cons_of_mem n hm)) (p + n) y
        (List.mem_of_mem_head? hy)

theorem cumSums_sum_mem : ∀ (ns : List Nat) (p : Nat), ns ≠ [] →
    p + ns.sum ∈ cumSums p ns := by
  intro ns
  induction ns with
  | nil => intro p h; exact absurd rfl h
  | cons n rest ih =>
      intro p _
      cases rest with
      | nil => simp [cumSums]
      | cons m t =>
          have hmem := ih (p + n) (by simp)
          have harith : p + (n :: m :: t).sum = p + n + (m :: t).sum := by
            simp [List.sum_cons]; omega
          rw [harith]
          exact List.mem_cons_of_mem _ hmem

theorem cumSums_getLast? : ∀ (ns : List Nat) (p : Nat), ns ≠ [] →
    (cumSums p ns).getLast? = some (p + ns.sum) := by
  intro ns
  induction ns with
  | nil => intro p h; exact absurd rfl h
  | cons n rest ih =>
      intro p _
      cases rest with
      | nil => simp [cumSums]
      | cons m t =>
          show ((p + n) :: cumSums (p + n) (m :: t)).getLast? = _
          have hne : cumSums (p + n) (m :: t) = (p + n + m) :: cumSums (p + n + m) t := rfl
          rw [hne, List.getLast?_cons_cons, ← hne, ih (p + n) (by simp)]
          have : p + n + (m :: t).sum = p + (n :: m :: t).sum := by
            simp [List.sum_cons]; omega
          rw [this]

theorem cumSums_count_sum (ns : List Nat) (hpos : ∀ n ∈ ns, 0 < n) (hne : ns ≠ [])
    (p : Nat) : (cumSums p ns).count (p + ns.sum) = 1 := by
  have hchain := cumSums_chain_lt ns hpos p
  have hpair : List.Pairwise (· < ·) (cumSums p ns) :=
    List.chain'_iff_pairwise.mp hchain
  have hnodup : (cumSums p ns).Nodup := hpair.imp Nat.ne_of_lt
  exact List.count_eq_one_of_mem hnodup (cumSums_sum_mem ns p hne)

theorem cumSums_length : ∀ (ns : List Nat) (p : Nat), (cumSums p ns).length = ns.length := by
  intro ns
  induction ns with
  | nil => intro p; rfl
  | cons n rest ih => intro p; simp [cumSums, ih]

theorem matchProgress_fst (db : Database) (genotypes : List UserGenotype) :
    (matchSNPsInBatches db genotypes).2.map Prod.fst =
      cumSums 0 ((chunkList batchSize genotypes).map List.length) := by
  rw [matchSNPsInBatches, runBatches_snd, List.map_map]
  have hfst : (Prod.fst ∘ fun c : Nat => (c, genotypes.length)) = fun c : Nat => c := rfl
  rw [hfst]
  simp

theorem matchProgress_snd_total (db : Database) (genotypes : List UserGenotype) :
    ∀ q ∈ (matchSNPsInBatches db genotypes).2, q.2 = genotypes.length := by
  intro q hq
  rw [matchSNPsInBatches, runBatches_snd] at hq
  obtain ⟨c, _, rfl⟩ := List.mem_map.mp hq
  rfl

theorem matchProgress_length (db : Database) (genotypes : List UserGenotype) :
    (matchSNPsInBatches db genotypes).2.length = (chunkList batchSize genotypes).length := by
  rw [matchSNPsInBatches, runBatches_snd]
  simp [cumSums_length]

theorem chunkLengths_sum (genotypes : List UserGenotype) :
    ((chunkList batchSize genotypes).map List.length).sum = genotypes.length := by
  have hB : 0 < batchSize := by decide
  rw [← List.length_flatten, chunkList_flatten hB]

theorem chunkList_ne_nil (genotypes : List UserGenotype) (h : genotypes ≠ []) :
    chunkList batchSize genotypes ≠ [] := by
  have hB : 0 < batchSize := by decide
  intro hnil
  apply h
  rw [← chunkList_flatten hB genotypes, hnil]
  rfl

theorem chunkLengths_pos (genotypes : List UserGenotype) :
    ∀ n ∈ (chunkList batchSize genotypes).map List.length, 0 < n := by
  have hB : 0 < batchSize := by decide
  intro n hn
  obtain ⟨b, hb, rfl⟩ := List.mem_map.mp hn
  exact List.length_pos.mpr (chunkFuel_mem_ne_nil hB _ _ _ hb)

theorem processBatch_fault (t : List SNPRecord) (fI : List String → Bool)
    (cf sf : Bool) (b : List UserGenotype) :
    processBatch { table := t, inFail := fI, countFail := cf, selectFail := sf } b =
      if fI (b.map (fun g => g.rsid)) then [] else processBatch (honestDb t) b := by
  by_cases h : fI (b.map (fun g => g.rsid)) = true
  · simp [processBatch, Database.queryIn, h]
  · simp at h
    simp [processBatch, Database.queryIn, h, honestDb]

theorem bnot_isEmpty_iff (s : String) : ((!s.isEmpty) = true) ↔ s ≠ "" := by
  constructor
  · intro h heq
    subst heq
    exact absurd h (by decide)
  · intro h
    cases hb : s.isEmpty with
    | false => rfl
    | true => exact absurd ((String.isEmpty_iff s).mp hb) h

theorem mem_condSearchTerm (o : Option String) (x : Clause) :
    x ∈ condSearchTerm o ↔
      ∃ s, o = some s ∧ s ≠ "" ∧ jsTrim s ≠ "" ∧ x = Clause.searchTerm (jsTrim s) := by
  cases o with
  | none => simp [condSearchTerm]
  | some s =>
      simp only [condSearchTerm]
      split
      next h =>
        rw [Bool.and_eq_true, bnot_isEmpty_iff, bnot_isEmpty_iff] at h
        constructor
        · intro hx
          rw [List.mem_singleton] at hx
          exact ⟨s, rfl, h.1, h.2, hx⟩
        · rintro ⟨s', hs', _, _, hx⟩
          cases hs'
          rw [List.mem_singleton]
          exact hx
      next h =>
        rw [Bool.and_eq_true, bnot_isEmpty_iff, bnot_isEmpty_iff] at h
        push_neg at h
        simp only [List.not_mem_nil, false_iff]
        rintro ⟨s', hs', h1, h2, _⟩
        cases hs'
        exact h2 (h h1)

theorem mem_condChromosome (o : Option String) (x : Clause) :
    x ∈ condChromosome o ↔ ∃ c, o = some c ∧ c ≠ "" ∧ x = Clause.chromosome c := by
  cases o with
  | none => simp [condChromosome]
  | some c =>
      simp only [condChromosome]
      split
      next h =>
        rw [bnot_isEmpty_iff] at h
        constructor
        · intro hx
          rw [List.mem_singleton] at hx
          exact ⟨c, rfl, h, hx⟩
        · rintro ⟨c', hc', _, hx⟩
          cases hc'
          rw [List.mem_singleton]
          exact hx
      next h =>
        rw [bnot_isEmpty_iff] at h
        push_neg at h
        simp only [List.not_mem_nil, false_iff]
        rintro ⟨c', hc', h1, _⟩
        cases hc'
        exact h1 h

theorem mem_condGene (o : Option String) (x : Clause) :
    x ∈ condGene o ↔
      ∃ g, o = some g ∧ g ≠ "" ∧ jsTrim g ≠ "" ∧ x = Clause.gene (jsTrim g) := by
  cases o with
  | none => simp [condGene]
  | some g =>
      simp only [condGene]
      split
      next h =>
        rw [Bool.and_eq_true, bnot_isEmpty_iff, bnot_isEmpty_iff] at h
        constructor
        · intro hx
          rw [List.mem_singleton] at hx
          exact ⟨g, rfl, h.1, h.2, hx⟩
        · rintro ⟨g', hg', _, _, hx⟩
          cases hg'
          rw [List.mem_singleton]
          exact hx
      next h =>
        rw [Bool.and_eq_true, bnot_isEmpty_iff, bnot_isEmpty_iff] at h
        push_neg at h
        simp only [List.not_mem_nil, false_iff]
        rintro ⟨g', hg', h1, h2, _⟩
        cases hg'
        exact h2 (h h1)

theorem mem_condClinSig (o : Option String) (x : Clause) :
    x ∈ condClinSig o ↔ ∃ s, o = some s ∧ s ≠ "" ∧ x = Clause.clinSig s := by
  cases o with
  | none => simp [condClinSig]
  | some s =>
      simp only [condClinSig]
      split
      next h =>
        rw [bnot_isEmpty_iff] at h
        constructor
        · intro hx
          rw [List.mem_singleton] at hx
          exact ⟨s, rfl, h, hx⟩
        · rintro ⟨s', hs', _, hx⟩
          cases hs'
          rw [List.mem_singleton]
          exact hx
      next h =>
        rw [bnot_isEmpty_iff] at h
        push_neg at h
        simp only [List.not_mem_nil, false_iff]
        rintro ⟨s', hs', h1, _⟩
        cases hs'
        exact h1 h

theorem mem_condDisease (o : Option String) (x : Clause) :
    x ∈ condDisease o ↔
      ∃ d, o = some d ∧ d ≠ "" ∧ jsTrim d ≠ "" ∧ x = Clause.disease (jsTrim d) := by
  cases o with
  | none => simp [condDisease]
  | some d =>
      simp only [condDisease]
      split
      next h =>
        rw [Bool.and_eq_true, bnot_isEmpty_iff, bnot_isEmpty_iff] at h
        constructor
        · intro hx
          rw [List.mem_singleton] at hx
          exact ⟨d, rfl, h.1, h.2, hx⟩
        · rintro ⟨d', hd', _, _, hx⟩
          cases hd'
          rw [List.mem_singleton]
          exact hx
      next h =>
        rw [Bool.and_eq_true, bnot_isEmpty_iff, bnot_isEmpty_iff] at h
        push_neg at h
        simp only [List.not_mem_nil, false_iff]
        rintro ⟨d', hd', h1, h2, _⟩
        cases hd'
        exact h2 (h h1)

/-- The keys of the three-batch scenario: 1200 identical keys. -/
def keys1200 : List UserGenotype := List.replicate 1200 (mkG "rs1")

/-- Claim C1 is false on the code: on the dataset {rs1, rs2, rs3} with input
keys [rs1, rs4, rs1], `matchSNPsInBatches` returns exactly ONE MatchedRecord,
not two — the engine returns the rs1 row once per group and `batch.find`
pairs it only with the first matching occurrence in the group. -/
theorem C1_counterexample :
    (matchSNPsInBatches (honestDb table3) keys3).1 =
      [{ toUserGenotype := mkG "rs1", snpData := mkRec "rs1" }] ∧
    (matchSNPsInBatches (honestDb table3) keys3).1.length ≠ 2 := by
  exact ⟨by decide, by decide⟩

/-- Claim C1 (amended): a key occurring more than once within one group does
NOT yield one MatchedRecord per occurrence; the group's query returns the row
once and it is paired with the first matching occurrence only.  On the
dataset {rs1, rs2, rs3} with keys [rs1, rs4, rs1] the result has exactly one
entry, pairing rs1's row with the first rs1 occurrence; rs4 is dropped and
the final progress tick is (3, 3). -/
theorem C1_duplicateKeySingleMatch :
    matchSNPsInBatches (honestDb table3) keys3 =
      ([{ toUserGenotype := mkG "rs1", snpData := mkRec "rs1" }], [(3, 3)]) := by
  decide

/-- Claim C2 is false on the code: `matchSNPsInBatches` compares keys
case-sensitively (`g.rsid === row.rsid`, and the SQL equality is BINARY), so
the mixed-case input key "RS123" produces NO MatchedRecord against a dataset
row keyed "rs123". -/
theorem C2_counterexample :
    matchSNPsInBatches (honestDb [mkRec "rs123"]) [mkG "RS123"] = ([], [(1, 1)]) := by
  decide

/-- Claim C2 (amended): the worker itself matches keys case-sensitively;
case-insensitive behaviour is achieved upstream, in the 23andMe file parser,
which lowercases every rsid before the keys reach the worker.  The
parser-normalized form of "RS123" is "rs123" and does match the row. -/
theorem C2_caseNormalizationUpstream :
    normalizeRsid "RS123" = "rs123" ∧
    (matchSNPsInBatches (honestDb [mkRec "rs123"]) [mkG (normalizeRsid "RS123")]).1 =
      [{ toUserGenotype := mkG "rs123", snpData := mkRec "rs123" }] := by
  exact ⟨by decide, by decide⟩

/-- Claim C3: `matchSNPsInBatches` partitions the keys into contiguous groups
of at most 500 in input order (their concatenation is the input), issues one
query per group — exactly ceil(keys.length / 500) queries — and with 1200
keys issues exactly 3 queries covering keys[0:500), [500:1000), [1000:1200). -/
theorem C3_batchPartition (keys : List UserGenotype) :
    (chunkList batchSize keys).flatten = keys ∧
    (∀ b ∈ chunkList batchSize keys, b.length ≤ batchSize) ∧
    queriesIssued keys = (keys.length + batchSize - 1) / batchSize ∧
    (keys.length = 1200 →
      chunkList batchSize keys =
        [keys.take 500, (keys.drop 500).take 500, keys.drop 1000]) := by
  have hB : 0 < batchSize := by decide
  refine ⟨chunkList_flatten hB keys,
    fun b hb => chunkFuel_mem_length_le _ _ _ hb,
    chunkList_length hB keys,
    fun h1200 => ?_⟩
  show chunkList 500 keys = [keys.take 500, (keys.drop 500).take 500, keys.drop 1000]
  have hB' : (0 : Nat) < 500 := by norm_num
  have h1 : keys ≠ [] := by
    intro h
    subst h
    simp at h1200
  rw [chunkList_cons hB' keys h1]
  have hd1 : (keys.drop 500).length = 700 := by
    rw [List.length_drop]
    omega
  have h2 : keys.drop 500 ≠ [] := List.ne_nil_of_length_pos (by omega)
  rw [chunkList_cons hB' _ h2]
  have hdd : (keys.drop 500).drop 500 = keys.drop 1000 := by
    rw [List.drop_drop]
  rw [hdd]
  have hd2 : (keys.drop 1000).length = 200 := by
    rw [List.length_drop]
    omega
  have h3 : keys.drop 1000 ≠ [] := List.ne_nil_of_length_pos (by omega)
  rw [chunkList_cons hB' _ h3]
  have htake : (keys.drop 1000).take 500 = keys.drop 1000 :=
    List.take_of_length_le (by omega)
  have hdrop : (keys.drop 1000).drop 500 = [] :=
    List.drop_eq_nil_of_le (by omega)
  rw [htake, hdrop]
  rfl

/-- Witness for C3 at a concrete 1200-key input. -/
theorem C3_witness :
    chunkList batchSize keys1200 =
      [keys1200.take 500, (keys1200.drop 500).take 500, keys1200.drop 1000] :=
  (C3_batchPartition keys1200).2.2.2 (by
    show (List.replicate 1200 (mkG "rs1")).length = 1200
    rw [List.length_replicate])

/-- Claim C10: with the store resident, `matchSNPs` on the empty keys input
returns the empty result and delivers no progress callback at all — in
particular no (0, 0) tick. -/
theorem C10_emptyKeysNoProgress (db : Database) :
    matchSNPs (some db) [] = .ok ([], []) := rfl

/-- The value `searchSNPs` returns on a fault-free engine: the count of the
full filtered set, and the page `LIMIT effLimit OFFSET effOffset` of it in
natural row order. -/
def searchOk (t : List SNPRecord) (f : Filters) : SearchResult :=
  { results := ((t.filter (wherePred (buildConditions f))).drop
      (effOffset f.offset)).take (effLimit f.limit),
    total := (t.filter (wherePred (buildConditions f))).length }

theorem searchSNPs_honest (t : List SNPRecord) (f : Filters) :
    searchSNPs (honestDb t) f = .ok (searchOk t f) := rfl

/-- Claim C4 is false on the code: the location (chromosome) criterion is
gated on truthiness only, with no trim check, so the whitespace-only value
" " — empty after trimming — still contributes a `chromosome = ?` clause;
on a one-record dataset whose row has chromosome "1" that clause filters
everything out instead of being absent. -/
theorem C4_counterexample :
    jsTrim " " = "" ∧
    buildConditions { chromosome := some " " } = [Clause.chromosome " "] ∧
    searchSNPs (honestDb [{ mkRec "rs9" with chromosome := some "1" }])
        { chromosome := some " " } = .ok { results := [], total := 0 } := by
  exact ⟨by decide, by decide, rfl⟩

/-- Claim C4 (amended): the free-text, gene-substring and disease-substring
clauses are each included iff their criterion is non-empty after trimming;
the chromosome and clinical-significance clauses are included iff their
criterion is a non-empty string (truthy), even when whitespace-only; the
present clauses are combined with AND; with no criteria at all, `total`
equals the full dataset size and `results` is the first page (first 50 rows)
in natural order. -/
theorem C4_clauseInclusion (f : Filters) (t : List SNPRecord) :
    ((∃ s, Clause.searchTerm s ∈ buildConditions f) ↔
      ∃ s0, f.searchTerm = some s0 ∧ s0 ≠ "" ∧ jsTrim s0 ≠ "") ∧
    ((∃ c, Clause.chromosome c ∈ buildConditions f) ↔
      ∃ c0, f.chromosome = some c0 ∧ c0 ≠ "") ∧
    ((∃ g, Clause.gene g ∈ buildConditions f) ↔
      ∃ g0, f.gene = some g0 ∧ g0 ≠ "" ∧ jsTrim g0 ≠ "") ∧
    ((∃ s, Clause.clinSig s ∈ buildConditions f) ↔
      ∃ s0, f.clinicalSignificance = some s0 ∧ s0 ≠ "") ∧
    ((∃ d, Clause.disease d ∈ buildConditions f) ↔
      ∃ d0, f.disease = some d0 ∧ d0 ≠ "" ∧ jsTrim d0 ≠ "") ∧
    (∀ r, wherePred (buildConditions f) r = (buildConditions f).all (clauseHolds r)) ∧
    searchSNPs (honestDb t) {} = .ok { results := t.take 50, total := t.length } := by
  refine ⟨?_, ?_, ?_, ?_, ?_, fun r => rfl, ?_⟩
  · simp only [buildConditions, List.mem_append, mem_condSearchTerm, mem_condChromosome,
      mem_condGene, mem_condClinSig, mem_condDisease]
    constructor
    · rintro ⟨s, ((((⟨s0, h1, h2, h3, _⟩ | ⟨c0, _, _, hx⟩) | ⟨g0, _, _, _, hx⟩) |
        ⟨s0, _, _, hx⟩) | ⟨d0, _, _, _, hx⟩)⟩
      · exact ⟨s0, h1, h2, h3⟩
      · cases hx
      · cases hx
      · cases hx
      · cases hx
    · rintro ⟨s0, h1, h2, h3⟩
      exact ⟨jsTrim s0, Or.inl (Or.inl (Or.inl (Or.inl ⟨s0, h1, h2, h3, rfl⟩)))⟩
  · simp only [buildConditions, List.mem_append, mem_condSearchTerm, mem_condChromosome,
      mem_condGene, mem_condClinSig, mem_condDisease]
    constructor
    · rintro ⟨c, ((((⟨s0, _, _, _, hx⟩ | ⟨c0, h1, h2, _⟩) | ⟨g0, _, _, _, hx⟩) |
        ⟨s0, _, _, hx⟩) | ⟨d0, _, _, _, hx⟩)⟩
      · cases hx
      · exact ⟨c0, h1, h2⟩
      · cases hx
      · cases hx
      · cases hx
    · rintro ⟨c0, h1, h2⟩
      exact ⟨c0, Or.inl (Or.inl (Or.inl (Or.inr ⟨c0, h1, h2, rfl⟩)))⟩
  · simp only [buildConditions, List.mem_append, mem_condSearchTerm, mem_condChromosome,
      mem_condGene, mem_condClinSig, mem_condDisease]
    constructor
    · rintro ⟨g, ((((⟨s0, _, _, _, hx⟩ | ⟨c0, _, _, hx⟩) | ⟨g0, h1, h2, h3, _⟩) |
        ⟨s0, _, _, hx⟩) | ⟨d0, _, _, _, hx⟩)⟩
      · cases hx
      · cases hx
      · exact ⟨g0, h1, h2, h3⟩
      · cases hx
      · cases hx
    · rintro ⟨g0, h1, h2, h3⟩
      exact ⟨jsTrim g0, Or.inl (Or.inl (Or.inr ⟨g0, h1, h2, h3, rfl⟩))⟩
  · simp only [buildConditions, List.mem_append, mem_condSearchTerm, mem_condChromosome,
      mem_condGene, mem_condClinSig, mem_condDisease]
    constructor
    · rintro ⟨s, ((((⟨s0, _, _, _, hx⟩ | ⟨c0, _, _, hx⟩) | ⟨g0, _, _, _, hx⟩) |
        ⟨s0, h1, h2, _⟩) | ⟨d0, _, _, _, hx⟩)⟩
      · cases hx
      · cases hx
      · cases hx
      · exact ⟨s0, h1, h2⟩
      · cases hx
    · rintro ⟨s0, h1, h2⟩
      exact ⟨s0, Or.inl (Or.inr ⟨s0, h1, h2, rfl⟩)⟩
  · simp only [buildConditions, List.mem_append, mem_condSearchTerm, mem_condChromosome,
      mem_condGene, mem_condClinSig, mem_condDisease]
    constructor
    · rintro ⟨d, ((((⟨s0, _, _, _, hx⟩ | ⟨c0, _, _, hx⟩) | ⟨g0, _, _, _, hx⟩) |
        ⟨s0, _, _, hx⟩) | ⟨d0, h1, h2, h3, _⟩)⟩
      · cases hx
      · cases hx
      · cases hx
      · cases hx
      · exact ⟨d0, h1, h2, h3⟩
    · rintro ⟨d0, h1, h2, h3⟩
      exact ⟨jsTrim d0, Or.inr ⟨d0, h1, h2, h3, rfl⟩⟩
  · rw [searchSNPs_honest t {}]
    have hfilter : t.filter (wherePred (buildConditions {})) = t :=
      List.filter_eq_self.mpr (fun a _ => rfl)
    unfold searchOk
    rw [hfilter]
    rfl

/-- Witness for C4 at a concrete input: a gene criterion that is whitespace
only contributes no clause, by the amended characterization. -/
theorem C4_witness :
    (¬ ∃ g, Clause.gene g ∈ buildConditions { gene := some "  " }) ∧
    buildConditions { gene := some "  " } = [] :=
  ⟨fun h => by
      obtain ⟨g0, h1, _, h3⟩ := (C4_clauseInclusion { gene := some "  " } []).2.2.1.mp h
      cases h1
      exact h3 (by decide),
    by decide⟩

/-- Claim C5: `searchSNPs` returns `total` equal to the full filtered set's
size independently of limit and offset, `results.length` is at most the
(defaulted) limit, and an offset at or beyond `total` yields empty `results`
with the same `total`, not an error. -/
theorem C5_paginationContract (t : List SNPRecord) (f : Filters) (l o : Option Nat) :
    searchSNPs (honestDb t) f = .ok (searchOk t f) ∧
    (searchOk t f).total = (t.filter (wherePred (buildConditions f))).length ∧
    (∀ res', searchSNPs (honestDb t) { f with limit := l, offset := o } = .ok res' →
      res'.total = (searchOk t f).total) ∧
    (searchOk t f).results.length ≤ effLimit f.limit ∧
    (effOffset f.offset ≥ (searchOk t f).total → (searchOk t f).results = []) := by
  refine ⟨rfl, rfl, ?_, List.length_take_le _ _, ?_⟩
  · intro res' h
    rw [searchSNPs_honest t { f with limit := l, offset := o }] at h
    have hres : searchOk t { f with limit := l, offset := o } = res' := Except.ok.inj h
    rw [← hres]
    rfl
  · intro hoff
    show ((t.filter (wherePred (buildConditions f))).drop (effOffset f.offset)).take
        (effLimit f.limit) = []
    rw [List.drop_eq_nil_of_le hoff]
    exact List.take_nil

/-- Witness for C5: offset 10 on the 3-record dataset yields an empty page. -/
theorem C5_witness :
    effOffset (some 10 : Option Nat) ≥ (searchOk table3 { offset := some 10 }).total ∧
    (searchOk table3 { offset := some 10 }).results = [] :=
  ⟨by decide,
    (C5_paginationContract table3 { offset := some 10 } none none).2.2.2.2 (by decide)⟩

/-- Claim C6 is false on the code at the empty input: with `keys = []` the
loop body never runs, so no progress callback is delivered and the final
value `keys.length = 0` is reported zero times, not exactly once. -/
theorem C6_counterexample :
    ¬ ((((matchSNPsInBatches (honestDb table3) []).2.map Prod.fst).count
        ([] : List UserGenotype).length) = 1) := by
  decide

/-- Claim C6 (amended): for every NON-EMPTY keys input (and any engine,
failures included), the progress callback fires once per group; the reported
first components are the cumulative counts of input keys considered so far,
a non-decreasing sequence whose last value is `keys.length`, reported exactly
once; every reported second component is `keys.length`.  For the empty input
the callback is never invoked. -/
theorem C6_progressSequence (db : Database) (keys : List UserGenotype)
    (hne : keys ≠ []) :
    (matchSNPsInBatches db keys).2.length = (chunkList batchSize keys).length ∧
    (∀ q ∈ (matchSNPsInBatches db keys).2, q.2 = keys.length) ∧
    (matchSNPsInBatches db keys).2.map Prod.fst =
      cumSums 0 ((chunkList batchSize keys).map List.length) ∧
    List.Chain' (· ≤ ·) ((matchSNPsInBatches db keys).2.map Prod.fst) ∧
    ((matchSNPsInBatches db keys).2.map Prod.fst).getLast? = some keys.length ∧
    ((matchSNPsInBatches db keys).2.map Prod.fst).count keys.length = 1 := by
  have hfst := matchProgress_fst db keys
  have hsum := chunkLengths_sum keys
  have hnsne : (chunkList batchSize keys).map List.length ≠ [] := by
    rw [Ne, List.map_eq_nil_iff]
    exact chunkList_ne_nil keys hne
  have hpos := chunkLengths_pos keys
  refine ⟨matchProgress_length db keys, matchProgress_snd_total db keys, hfst, ?_, ?_, ?_⟩
  · rw [hfst]
    exact cumSums_chain_le _ 0
  · rw [hfst, cumSums_getLast? _ 0 hnsne, Nat.zero_add, hsum]
  · rw [hfst]
    have := cumSums_count_sum _ hpos hnsne 0
    rw [Nat.zero_add, hsum] at this
    exact this

/-- Witness for C6 on the three-key scenario input. -/
theorem C6_witness :
    keys3 ≠ [] ∧
    ((matchSNPsInBatches (honestDb table3) keys3).2.map Prod.fst).count keys3.length = 1 :=
  ⟨by decide, (C6_progressSequence (honestDb table3) keys3 (by decide)).2.2.2.2.2⟩

/-- Claim C7: a per-group engine failure in `matchSNPsInBatches` is caught
and contributes zero matches while all other groups still contribute their
normal matches and every progress tick is still delivered (the operation
never aborts); an engine failure in `searchSNPs` (count or select) is not
caught and aborts the whole call with an error surfaced to the caller. -/
theorem C7_errorHandling (t : List SNPRecord) (fI : List String → Bool)
    (cf sf : Bool) (keys : List UserGenotype) (f : Filters) :
    (matchSNPsInBatches { table := t, inFail := fI, countFail := cf, selectFail := sf }
        keys).1 =
      ((chunkList batchSize keys).map (fun b =>
        if fI (b.map (fun g => g.rsid)) then [] else processBatch (honestDb t) b)).flatten ∧
    (matchSNPsInBatches { table := t, inFail := fI, countFail := cf, selectFail := sf }
        keys).2 = (matchSNPsInBatches (honestDb t) keys).2 ∧
    (cf = true ∨ sf = true →
      ∃ e, searchSNPs { table := t, inFail := fI, countFail := cf, selectFail := sf } f =
        .error e) := by
  refine ⟨?_, ?_, ?_⟩
  · rw [matchSNPsInBatches, runBatches_fst]
    congr 1
    exact List.map_congr_left (fun b _ => processBatch_fault t fI cf sf b)
  · rw [matchSNPsInBatches, runBatches_snd, matchSNPsInBatches, runBatches_snd]
  · rintro (hcf | hsf)
    · subst hcf
      exact ⟨"count query failed", rfl⟩
    · subst hsf
      cases cf with
      | true => exact ⟨"count query failed", rfl⟩
      | false => exact ⟨"select query failed", rfl⟩

/-- Witness for C7: a count-query failure aborts a concrete search call. -/
theorem C7_witness :
    ∃ e, searchSNPs
        { table := table3, inFail := fun _ => false, countFail := true, selectFail := false }
        {} = .error e :=
  (C7_errorHandling table3 (fun _ => false) true false keys3 {}).2.2 (Or.inl rfl)

/-- Claim C8: `loadDatabase` rejects on a non-success fetch status and on an
unreadable body; on a failure at any phase the store handle is left "not
loaded" (`db = null`), so a subsequent `matchSNPs` or `searchSNPs` call sees
no partially materialized dataset — both fail with "Database not loaded". -/
theorem C8_loadFailure (materialize : List Nat → Except String Database)
    (fetch : FetchResult) :
    (∀ st, fetch = .failStatus st →
      loadDatabase materialize fetch =
        (none, .error ("Failed to load database: " ++ st))) ∧
    (fetch = .noBody →
      loadDatabase materialize fetch = (none, .error "Response body is not readable")) ∧
    (∀ e, (loadDatabase materialize fetch).2 = .error e →
      (loadDatabase materialize fetch).1 = none) ∧
    (∀ keys, matchSNPs none keys =
      .error "Database not loaded. Call loadDatabase first.") ∧
    (∀ f, searchSNPsApi none f =
      .error "Database not loaded. Call loadDatabase first.") := by
  refine ⟨?_, ?_, ?_, fun keys => rfl, fun f => rfl⟩
  · intro st h
    subst h
    rfl
  · intro h
    subst h
    rfl
  · intro e
    cases fetch with
    | failStatus st => intro _; rfl
    | noBody => intro _; rfl
    | readError msg => intro _; rfl
    | body chunks =>
        intro h
        cases hm : materialize chunks.flatten with
        | error e' => simp [loadDatabase, hm]
        | ok db => simp [loadDatabase, hm] at h

/-- Witness for C8: a concrete 404-status fetch leaves the store unloaded. -/
theorem C8_witness :
    loadDatabase (fun _ => .error "bad image") (.failStatus "404") =
      (none, .error ("Failed to load database: " ++ "404")) :=
  (C8_loadFailure (fun _ => .error "bad image") (.failStatus "404")).1 "404" rfl

/-- Claim C9: a falsy `limit` (absent or 0) is replaced by the default 50 and
a falsy `offset` by 0, so `searchSNPs` with `limit = 0` behaves exactly like
`searchSNPs` with no limit and returns up to 50 rows — concretely, a full
page of 50 on a 60-row dataset — rather than an empty page. -/
theorem C9_falsyPaginationDefaults (db : Database) (f : Filters) :
    searchSNPs db { f with limit := some 0 } = searchSNPs db { f with limit := none } ∧
    searchSNPs db { f with offset := some 0 } = searchSNPs db { f with offset := none } ∧
    effLimit (some 0) = 50 ∧ effLimit none = 50 ∧
    effOffset (some 0) = 0 ∧ effOffset none = 0 ∧
    (searchOk (List.replicate 60 (mkRec "rs1")) { limit := some 0 }).results.length = 50 := by
  refine ⟨rfl, rfl, rfl, rfl, rfl, rfl, ?_⟩
  decide
